import Mathlib

/-!
Shallow embedding of `src/python/main.py` (the PS-to-Genesis export
pipeline): token acquisition (`get_bearer_token`), data fetch
(`fetch_api_data`), tabular normalization (`save_to_excel`) and the
orchestrating `main`, together with theorems checking the repository's
specification against this embedding.

HTTP traffic is abstracted as the final response (or transport error)
each endpoint would deliver; `requests.Response.raise_for_status`
raises exactly for statuses in `[400, 600)`.  Spreadsheet writing is
abstracted as an injected outcome (success or exception), matching the
spec's treatment of the writer as an opaque sink.
-/

set_option autoImplicit false

namespace PSGenesis

/-- A JSON value as produced by `response.json()`.  Numbers are modelled
as integers, which covers every payload the specification mentions. -/
inductive JValue where
  | null
  | bool (b : Bool)
  | num (n : Int)
  | str (s : String)
  | arr (elems : List JValue)
  | obj (fields : List (String × JValue))
deriving Repr

/-- Python `dict` lookup on a field list (a JSON object has unique keys,
so first-match lookup agrees with `dict` access). -/
def lookupField (fields : List (String × JValue)) (k : String) : Option JValue :=
  match fields with
  | [] => none
  | (k2, v) :: rest => if k2 = k then some v else lookupField rest k

/-- Python truthiness of an optional environment variable: `None` and the
empty string are falsy, every other string is truthy. -/
def truthy : Option String → Bool
  | none => false
  | some s => !s.isEmpty

/-- Python iterability of a JSON value (`for x in v`): lists, dicts and
strings iterate; `None`, booleans and numbers raise `TypeError`. -/
def pyIterable : JValue → Bool
  | .arr _ => true
  | .obj _ => true
  | .str _ => true
  | _ => false

/-- An HTTP response as seen through `requests`: final status code, raw
body text, parsed JSON body (`none` when the body is not valid JSON,
in which case `response.json()` raises a `RequestException`), and
response headers. -/
structure HttpResponse where
  status : Nat
  body : String
  json : Option JValue
  headers : List (String × String)

/-- The outcome of one `requests.post` call: either a delivered response
or a transport-level failure (connection error, timeout, ...), which
`requests` surfaces as a `RequestException`. -/
inductive NetResult where
  | response (r : HttpResponse)
  | netError (msg : String)

/-- `requests.Response.raise_for_status` raises `HTTPError` exactly for
client and server error statuses, i.e. `400 <= status < 600`. -/
def raiseForStatusRaises (status : Nat) : Bool :=
  decide (400 ≤ status) && decide (status < 600)

/-- Console output events, in emission order. -/
inductive PrintEvent where
  | statusCode (code : Nat)
  | responseBody (body : String)
  | headerLine (k v : String)
  | errorFetching
  | errorToken
  | noRecordsNotice
  | savedNotice (filename : String)
  | saveErrorNotice
deriving Repr

/-- Result of `get_bearer_token`: the returned token value
(`token_data.get('access_token')`, possibly `None`), a caught
`RequestException` ending in `sys.exit(1)`, or an uncaught exception
(`.get` on a non-dict JSON body raises `AttributeError`, which the
`except requests.exceptions.RequestException` clause does not catch). -/
inductive AuthOutcome where
  | token (t : Option JValue)
  | exitNonZero
  | uncaught

/-- Result of `fetch_api_data`: the parsed JSON body, or a caught
`RequestException` ending in `sys.exit(1)`. -/
inductive FetchOutcome where
  | success (v : JValue)
  | exitNonZero

/-- Embedding of `get_bearer_token` (main.py lines 28-63), as a function
of the auth endpoint's behaviour.  `raise_for_status` raises for
4xx/5xx; the raised `HTTPError`, any transport error, and a JSON decode
error are all `RequestException`s, caught and turned into
`print`-then-`sys.exit(1)`.  Otherwise the function returns
`token_data.get('access_token')`. -/
def getBearerToken (net : NetResult) : List PrintEvent × AuthOutcome :=
  match net with
  | .netError _ => ([.errorToken], .exitNonZero)
  | .response r =>
    if raiseForStatusRaises r.status then
      ([.errorToken], .exitNonZero)
    else
      match r.json with
      | none => ([.errorToken], .exitNonZero)
      | some (.obj fields) => ([], .token (lookupField fields "access_token"))
      | some _ => ([], .uncaught)

/-- Embedding of `fetch_api_data` (main.py lines 65-90).  A non-200
status prints the status code, the raw body and every header; only a
4xx/5xx status then raises (caught, `sys.exit(1)`).  For any other
status the function falls through and returns `response.json()`. -/
def fetchApiData (net : NetResult) : List PrintEvent × FetchOutcome :=
  match net with
  | .netError _ => ([.errorFetching], .exitNonZero)
  | .response r =>
    let diag : List PrintEvent :=
      if r.status ≠ 200 then
        [.statusCode r.status, .responseBody r.body] ++
          r.headers.map (fun p => .headerLine p.1 p.2)
      else []
    if raiseForStatusRaises r.status then
      (diag ++ [.errorFetching], .exitNonZero)
    else
      match r.json with
      | some v => (diag, .success v)
      | none => (diag ++ [.errorFetching], .exitNonZero)

/-- Shape resolution of `save_to_excel` (main.py lines 101-111): a list
is used directly; a dict is unwrapped through `data` then `results`
(each only when mapped to a list) and otherwise wrapped as a single
record; any other value leaves `records` as the initial `[]`. -/
def resolveRecords (data : JValue) : List JValue :=
  match data with
  | .arr elems => elems
  | .obj fields =>
    match lookupField fields "data" with
    | some (.arr elems) => elems
    | _ =>
      match lookupField fields "results" with
      | some (.arr elems) => elems
      | _ => [.obj fields]
  | _ => []

/-- The spec's ordered shape-resolution policy, written from the spec's
words for comparison with `resolveRecords`: (1) a sequence is used
directly; (2) else a mapping with key `data` holding a sequence yields
that sequence; (3) else key `results` likewise; (4) else the whole
mapping is wrapped as a one-element sequence. -/
def resolveRecordsSpec (v : JValue) : List JValue :=
  match v with
  | .arr elems => elems
  | .obj fields =>
    match lookupField fields "data" with
    | some (.arr elems) => elems
    | _ =>
      match lookupField fields "results" with
      | some (.arr elems) => elems
      | _ => [.obj fields]
  | other => [other]

/-- Whether a JSON value is a sequence or a mapping: the shapes the
spec's resolution policy speaks about. -/
def topShape : JValue → Bool
  | .arr _ => true
  | .obj _ => true
  | _ => false

/-- Keys of one record, in insertion order (`pd.DataFrame` column
discovery reads each dict's keys in order). -/
def recordKeys : JValue → List String
  | .obj fields => fields.map Prod.fst
  | _ => []

/-- Append a key if not already present (first-appearance order). -/
def insertKey (acc : List String) (k : String) : List String :=
  if acc.contains k then acc else acc ++ [k]

/-- Column set of `pd.DataFrame(records)`: union of the records' keys in
first-appearance order. -/
def unionKeys (recs : List JValue) : List String :=
  recs.foldl (fun acc r => (recordKeys r).foldl insertKey acc) []

/-- Cell of a record under a column: the record's value there, or `none`
(pandas `NaN`, written as a blank cell) when the record lacks the key. -/
def cellOf (r : JValue) (k : String) : Option JValue :=
  match r with
  | .obj fields => lookupField fields k
  | _ => none

/-- The tabular form produced by `pd.DataFrame(records)`: one row per
record, cells aligned to the unioned columns. -/
structure Table where
  columns : List String
  rows : List (List (Option JValue))
deriving Repr

/-- `pd.DataFrame` on a list of record mappings. -/
def mkTable (recs : List JValue) : Table :=
  let cols := unionKeys recs
  { columns := cols, rows := recs.map (fun r => cols.map (cellOf r)) }

/-- One spreadsheet cell: a header label, a value, or a blank (pandas
`NaN` for a missing key). -/
inductive Cell where
  | header (s : String)
  | val (v : JValue)
  | blank
deriving Repr

/-- The sheet emitted by `df.to_excel(filename, index=False)`: one header
row made of the column labels, then one row per record, with no
row-index column prepended. -/
def sheetOf (t : Table) : List (List Cell) :=
  (t.columns.map Cell.header) ::
    t.rows.map (fun row => row.map (fun c => match c with
      | some v => Cell.val v
      | none => Cell.blank))

/-- Embedding of `save_to_excel` (main.py lines 92-125), as a function of
the data and of the writer's outcome (`df.to_excel` succeeding or
raising).  The whole body sits in `try/except Exception`, so every
outcome is returned normally: the printed events and the file content
written (`none` when no file was produced). -/
def saveToExcel (data : JValue) (writeResult : Except String Unit)
    (filename : String) : List PrintEvent × Option Table :=
  let records := resolveRecords data
  if records.isEmpty then
    ([.noRecordsNotice], none)
  else
    match writeResult with
    | .ok _ => ([.savedNotice filename], some (mkTable records))
    | .error _ => ([.saveErrorNotice], none)

/-- The four environment variables read at import time. -/
structure Config where
  clientId : Option String
  clientSecret : Option String
  authUrl : Option String
  dataUrl : Option String

/-- `all([CLIENT_ID, CLIENT_SECRET, AUTH_URL, DATA_URL])` (main.py
line 129). -/
def configOk (c : Config) : Bool :=
  truthy c.clientId && truthy c.clientSecret &&
    truthy c.authUrl && truthy c.dataUrl

/-- How one run of `main` terminates: normal return (exit status 0),
`sys.exit(1)`, or an uncaught exception (the interpreter prints a
traceback and exits with a non-zero status). -/
inductive ExitStatus where
  | exit0
  | exit1
  | uncaughtError
deriving Repr, DecidableEq

/-- Whether an exit status is non-zero at the OS level. -/
def nonZeroExit : ExitStatus → Bool
  | .exit0 => false
  | _ => true

/-- Observable outcome of one run of `main`: which endpoints were
called, whether `save_to_excel` was reached (and what it printed and
wrote), and the process exit status. -/
structure RunResult where
  authCalled : Bool
  dataCalled : Bool
  saveOutcome : Option (List PrintEvent × Option Table)
  exit : ExitStatus

/-- The spreadsheet file a run produced, if any. -/
def fileOf (r : RunResult) : Option Table :=
  match r.saveOutcome with
  | some (_, t) => t
  | none => none

/-- Embedding of `main` (main.py lines 127-171), as a function of the
configuration, the section list `configparser` finds in `.env`, the
behaviour of the two endpoints, and the writer outcome.  Mirrors the
source order: config validation, authentication, the vestigial
`sections`-gated branch (which skips the fetch entirely), the fetch,
the verification loop over `api_data.items()` (which raises `TypeError`
when key `record` maps to a non-iterable), the unconditional subscript
`api_data['record']` (which raises `KeyError` when absent), and finally
`save_to_excel`. -/
def runMain (cfg : Config) (sections : List String)
    (authNet dataNet : NetResult) (writeResult : Except String Unit) :
    RunResult :=
  if !configOk cfg then
    { authCalled := false, dataCalled := false, saveOutcome := none,
      exit := .exit1 }
  else
    match (getBearerToken authNet).2 with
    | .exitNonZero =>
      { authCalled := true, dataCalled := false, saveOutcome := none,
        exit := .exit1 }
    | .uncaught =>
      { authCalled := true, dataCalled := false, saveOutcome := none,
        exit := .uncaughtError }
    | .token _ =>
      if ((sections.length : Int) - 1) > 0 then
        { authCalled := true, dataCalled := false, saveOutcome := none,
          exit := .exit0 }
      else
        match (fetchApiData dataNet).2 with
        | .exitNonZero =>
          { authCalled := true, dataCalled := true, saveOutcome := none,
            exit := .exit1 }
        | .success apiData =>
          match apiData with
          | .obj fields =>
            match lookupField fields "record" with
            | some v =>
              if pyIterable v then
                { authCalled := true, dataCalled := true,
                  saveOutcome :=
                    some (saveToExcel v writeResult "api_data.xlsx"),
                  exit := .exit0 }
              else
                { authCalled := true, dataCalled := true,
                  saveOutcome := none, exit := .uncaughtError }
            | none =>
              { authCalled := true, dataCalled := true,
                saveOutcome := none, exit := .uncaughtError }
          | _ =>
            { authCalled := true, dataCalled := true, saveOutcome := none,
              exit := .uncaughtError }

/-- A fully-populated configuration, for concrete runs. -/
def cfgAll : Config :=
  { clientId := some "id", clientSecret := some "secret",
    authUrl := some "https://auth.example", dataUrl := some "https://data.example" }

/-- An auth endpoint answering 200 with an access token. -/
def authOkNet : NetResult :=
  .response { status := 200, body := "tok",
              json := some (.obj [("access_token", .str "T")]), headers := [] }

/-- An auth response with status 204 and an empty JSON object. -/
def auth204Empty : HttpResponse :=
  { status := 204, body := "tok", json := some (.obj []), headers := [] }

/-- An auth response with status 201 carrying an access token. -/
def auth201T : HttpResponse :=
  { status := 201, body := "tok",
    json := some (.obj [("access_token", .str "T")]), headers := [] }

/-- An auth endpoint answering 304 (non-2xx, but outside the range
`raise_for_status` raises for) with a token-bearing JSON body. -/
def auth304 : NetResult :=
  .response { status := 304, body := "not modified",
              json := some (.obj [("access_token", .str "T")]), headers := [] }

/-- An auth response with status 401. -/
def auth401Resp : HttpResponse :=
  { status := 401, body := "denied", json := some (.obj []),
    headers := [("WWW-Authenticate", "Basic")] }

/-- A data endpoint answering 200 with a body whose key `results` maps
to an empty list. -/
def dataResultsEmpty : NetResult :=
  .response { status := 200, body := "resp",
              json := some (.obj [("results", .arr [])]), headers := [] }

/-- A data endpoint answering 200 with a body whose key `record` maps
to an empty list. -/
def dataRecordEmptyNet : NetResult :=
  .response { status := 200, body := "resp",
              json := some (.obj [("record", .arr [])]), headers := [] }

/-- The two records of the spec's worked example. -/
def recsAB : List JValue :=
  [.obj [("a", .num 1)], .obj [("a", .num 2), ("b", .num 3)]]

/-- A data endpoint answering 200 with a body whose key `record` maps
to the two example records. -/
def dataRecordNet : NetResult :=
  .response { status := 200, body := "resp",
              json := some (.obj [("record", .arr recsAB)]), headers := [] }

/-- The table the worked example should produce. -/
def tableAB : Table :=
  { columns := ["a", "b"],
    rows := [[some (.num 1), none], [some (.num 2), some (.num 3)]] }

/-- A configuration whose client secret is the empty string. -/
def cfgEmptySecret : Config :=
  { clientId := some "id", clientSecret := some "",
    authUrl := some "https://auth.example", dataUrl := some "https://data.example" }

/-- A data endpoint answering 200 with a body lacking the key `record`. -/
def dataFooNet : NetResult :=
  .response { status := 200, body := "resp",
              json := some (.obj [("foo", .num 1)]), headers := [] }

/-- A data response with status 201 and a JSON object body. -/
def resp201 : HttpResponse :=
  { status := 201, body := "created", json := some (.obj []), headers := [] }

/-- A data response with status 401. -/
def resp401 : HttpResponse :=
  { status := 401, body := "denied", json := some (.obj []),
    headers := [("Content-Type", "text/plain")] }

end PSGenesis

namespace PSGenesis

/-- C2: the normalizer resolves the record list by exactly the spec's
ordered policy (sequence used directly; else a mapping unwrapped through
`data`, then `results`, each only when mapped to a sequence; else the
whole mapping wrapped as a one-element sequence), and the input with
`results` mapped to the one-record list resolves to that one record. -/
theorem C2_shape_policy :
    (∀ v : JValue, topShape v = true → resolveRecords v = resolveRecordsSpec v) ∧
    resolveRecords (.obj [("results", .arr [.obj [("x", .num 1)]])]) =
      [.obj [("x", .num 1)]] := by
  refine ⟨?_, rfl⟩
  intro v hv
  cases v <;> simp_all [resolveRecords, resolveRecordsSpec, topShape]

/-- Witness for C2 at a concrete sequence input. -/
theorem C2_witness :
    resolveRecords (.arr [.num 5]) = resolveRecordsSpec (.arr [.num 5]) :=
  C2_shape_policy.1 (.arr [.num 5]) rfl

/-- C7: on a 2xx auth response whose JSON body is an object,
`get_bearer_token` returns the value under `access_token` (the string
when present, `None` when absent, with no validation); in particular
the 200 response carrying token `T` yields `T`, and a 2xx response
without the key yields `None`. -/
theorem C7_token_success :
    (∀ (r : HttpResponse) (fields : List (String × JValue)),
        200 ≤ r.status → r.status < 300 → r.json = some (.obj fields) →
        getBearerToken (.response r) =
          ([], .token (lookupField fields "access_token"))) ∧
    getBearerToken authOkNet = ([], .token (some (.str "T"))) ∧
    getBearerToken (.response auth204Empty) = ([], .token none) := by
  refine ⟨?_, rfl, rfl⟩
  intro r fields h1 h2 hj
  have hraise : raiseForStatusRaises r.status = false := by
    simp [raiseForStatusRaises]
    omega
  simp [getBearerToken, hraise, hj]

/-- Witness for C7 at a concrete 201 response carrying a token. -/
theorem C7_witness :
    getBearerToken (.response auth201T) = ([], .token (some (.str "T"))) :=
  C7_token_success.1 auth201T [("access_token", .str "T")]
    (by decide) (by decide) rfl

/-- C8: when the resolved record list is empty, `save_to_excel` prints
the no-records notice and returns without writing a file; and whenever
`save_to_excel` is reached, `main` finishes with exit status 0, so the
empty case is not an error. -/
theorem C8_empty_records :
    (∀ (data : JValue) (w : Except String Unit) (f : String),
        resolveRecords data = [] →
        saveToExcel data w f = ([.noRecordsNotice], none)) ∧
    (∀ (cfg : Config) (sections : List String) (authNet dataNet : NetResult)
        (w : Except String Unit),
        (runMain cfg sections authNet dataNet w).saveOutcome.isSome = true →
        (runMain cfg sections authNet dataNet w).exit = .exit0) := by
  constructor
  · intro data w f h
    simp [saveToExcel, h]
  · intro cfg sections authNet dataNet w
    unfold runMain
    (repeat' split) <;> simp

/-- Witness for C8 at the empty list input. -/
theorem C8_witness :
    saveToExcel (.arr []) (.ok ()) "api_data.xlsx" =
      ([.noRecordsNotice], none) :=
  C8_empty_records.1 (.arr []) (.ok ()) "api_data.xlsx" rfl

/-- C9: a writer exception is caught by `save_to_excel`, reported, and
swallowed (the call returns normally with the error notice and no
file), and the exit status of `main` never depends on the writer
outcome. -/
theorem C9_swallowed :
    (∀ (data : JValue) (e : String) (f : String),
        (resolveRecords data).isEmpty = false →
        saveToExcel data (.error e) f = ([.saveErrorNotice], none)) ∧
    (∀ (cfg : Config) (sections : List String) (authNet dataNet : NetResult)
        (w w2 : Except String Unit),
        (runMain cfg sections authNet dataNet w).exit =
          (runMain cfg sections authNet dataNet w2).exit) := by
  constructor
  · intro data e f h
    simp [saveToExcel, h]
  · intro cfg sections authNet dataNet w w2
    unfold runMain
    (repeat' split) <;> rfl

/-- Witness for C9 at a concrete record list and a failing writer. -/
theorem C9_witness :
    saveToExcel (.arr [.obj [("a", .num 1)]]) (.error "disk full")
        "api_data.xlsx" = ([.saveErrorNotice], none) :=
  C9_swallowed.1 (.arr [.obj [("a", .num 1)]]) "disk full" "api_data.xlsx" rfl

/-- C5: if any of the four required configuration values is absent or
empty, `main` exits non-zero without issuing the auth POST or the data
POST. -/
theorem C5_missing_config (cfg : Config) (sections : List String)
    (authNet dataNet : NetResult) (w : Except String Unit)
    (h : truthy cfg.clientId = false ∨ truthy cfg.clientSecret = false ∨
         truthy cfg.authUrl = false ∨ truthy cfg.dataUrl = false) :
    (runMain cfg sections authNet dataNet w).authCalled = false ∧
    (runMain cfg sections authNet dataNet w).dataCalled = false ∧
    nonZeroExit (runMain cfg sections authNet dataNet w).exit = true := by
  have hc : configOk cfg = false := by
    rcases h with h | h | h | h <;> simp [configOk, h]
  simp [runMain, hc, nonZeroExit]

/-- Witness for C5 at a configuration with an empty client secret. -/
theorem C5_witness :
    (runMain cfgEmptySecret [] authOkNet dataRecordNet (.ok ())).authCalled
      = false ∧
    (runMain cfgEmptySecret [] authOkNet dataRecordNet (.ok ())).dataCalled
      = false ∧
    nonZeroExit
      (runMain cfgEmptySecret [] authOkNet dataRecordNet (.ok ())).exit
      = true :=
  C5_missing_config cfgEmptySecret [] authOkNet dataRecordNet (.ok ())
    (Or.inr (Or.inl rfl))

/-- C1 counterexample: with a valid configuration and a successful auth,
the data response with `results` mapped to the empty list does not make
the process exit 0 as the claim states: the hardcoded subscript on
`record` raises `KeyError`, so the exit status is non-zero (no output
file is produced, as the claim also says). -/
theorem C1_counterexample :
    (runMain cfgAll [] authOkNet dataResultsEmpty (.ok ())).exit ≠
      ExitStatus.exit0 ∧
    fileOf (runMain cfgAll [] authOkNet dataResultsEmpty (.ok ())) = none :=
  ⟨by decide, rfl⟩

/-- C1 amended: for every run whose fetched data response is the 200
response with `results` mapped to the empty list, no output file is
produced and the process exits with a non-zero status (an uncaught
`KeyError` on the missing `record` key). -/
theorem C1_amended_holds (cfg : Config) (sections : List String)
    (authNet : NetResult) (w : Except String Unit) (t : Option JValue)
    (hc : configOk cfg = true) (hs : sections.length ≤ 1)
    (ha : (getBearerToken authNet).2 = .token t) :
    fileOf (runMain cfg sections authNet dataResultsEmpty w) = none ∧
    nonZeroExit (runMain cfg sections authNet dataResultsEmpty w).exit =
      true := by
  have hsec : ¬(((sections.length : Int) - 1) > 0) := by omega
  have hfetch : (fetchApiData dataResultsEmpty).2 =
      .success (.obj [("results", .arr [])]) := rfl
  simp [runMain, hc, ha, hsec, hfetch, lookupField, fileOf, nonZeroExit]

/-- Witness for the amended C1 at a concrete valid run. -/
theorem C1_amended_witness :
    fileOf (runMain cfgAll [] authOkNet dataResultsEmpty (.ok ())) = none ∧
    nonZeroExit
        (runMain cfgAll [] authOkNet dataResultsEmpty (.ok ())).exit = true :=
  C1_amended_holds cfgAll [] authOkNet (.ok ()) (some (.str "T"))
    rfl (by decide) rfl

/-- C10: when the fetched 200 response is a JSON object without the key
`record`, `main`'s subscript access raises an uncaught `KeyError`: the
normalizer is never called, no file is written, and the process
terminates with a non-zero status. -/
theorem C10_missing_record_key (cfg : Config) (sections : List String)
    (authNet : NetResult) (fields : List (String × JValue))
    (body : String) (hdrs : List (String × String))
    (w : Except String Unit) (t : Option JValue)
    (hc : configOk cfg = true)
    (hs : sections.length ≤ 1)
    (ha : (getBearerToken authNet).2 = .token t)
    (hr : lookupField fields "record" = none) :
    (runMain cfg sections authNet
        (.response { status := 200, body := body,
                     json := some (.obj fields), headers := hdrs })
        w).saveOutcome = none ∧
    fileOf (runMain cfg sections authNet
        (.response { status := 200, body := body,
                     json := some (.obj fields), headers := hdrs }) w) = none ∧
    (runMain cfg sections authNet
        (.response { status := 200, body := body,
                     json := some (.obj fields), headers := hdrs }) w).exit =
      .uncaughtError := by
  have hsec : ¬(((sections.length : Int) - 1) > 0) := by omega
  have hfetch : (fetchApiData
      (.response { status := 200, body := body,
                   json := some (.obj fields), headers := hdrs })).2 =
      .success (.obj fields) := rfl
  simp [runMain, hc, ha, hsec, hfetch, hr, fileOf]

/-- Witness for C10 at a concrete object body lacking `record`. -/
theorem C10_witness :
    (runMain cfgAll [] authOkNet dataFooNet (.ok ())).saveOutcome = none ∧
    fileOf (runMain cfgAll [] authOkNet dataFooNet (.ok ())) = none ∧
    (runMain cfgAll [] authOkNet dataFooNet (.ok ())).exit =
      .uncaughtError :=
  C10_missing_record_key cfgAll [] authOkNet [("foo", .num 1)] "resp" []
    (.ok ()) (some (.str "T")) rfl (by decide) rfl rfl

/-- C4 counterexample: a 201 response (non-200) makes `fetch_api_data`
return the parsed JSON body instead of raising and exiting non-zero,
because `raise_for_status` only raises for 4xx/5xx. -/
theorem C4_counterexample :
    (fetchApiData (.response resp201)).2 = .success (.obj []) ∧
    ¬(fetchApiData (.response resp201)).2 = FetchOutcome.exitNonZero :=
  ⟨rfl, fun h => nomatch h⟩

/-- C4 amended: every non-200 response makes `fetch_api_data` print the
status code, the raw body, and all headers; a 4xx/5xx status then
raises and the process exits non-zero, while any status outside the
raising range still returns the parsed JSON body. -/
theorem C4_amended_holds (r : HttpResponse) (h : r.status ≠ 200) :
    (∃ rest, (fetchApiData (.response r)).1 =
        ([.statusCode r.status, .responseBody r.body] ++
          r.headers.map (fun p => .headerLine p.1 p.2)) ++ rest) ∧
    (400 ≤ r.status → r.status < 600 →
        (fetchApiData (.response r)).2 = .exitNonZero) ∧
    (raiseForStatusRaises r.status = false → ∀ v, r.json = some v →
        (fetchApiData (.response r)).2 = .success v) := by
  refine ⟨?_, ?_, ?_⟩
  · by_cases hr : raiseForStatusRaises r.status = true
    · exact ⟨[.errorFetching], by simp [fetchApiData, h, hr]⟩
    · rcases hj : r.json with _ | v
      · exact ⟨[.errorFetching], by simp [fetchApiData, h, hr, hj]⟩
      · exact ⟨[], by simp [fetchApiData, h, hr, hj]⟩
  · intro h4 h6
    have hr : raiseForStatusRaises r.status = true := by
      simp [raiseForStatusRaises]
      omega
    simp [fetchApiData, hr]
  · intro hr v hj
    simp [fetchApiData, hr, hj]

/-- Witness for the amended C4 at a concrete 401 response. -/
theorem C4_witness :
    (fetchApiData (.response resp401)).2 = FetchOutcome.exitNonZero :=
  (C4_amended_holds resp401 (by decide)).2.1 (by decide) (by decide)

/-- C6 counterexample: a 304 auth response is non-2xx, yet
`raise_for_status` does not raise for it, so the run continues, the
data fetch is performed, and the process exits 0 — contradicting the
claim that every non-2xx auth status aborts before the fetch. -/
theorem C6_counterexample :
    (runMain cfgAll [] auth304 dataRecordEmptyNet (.ok ())).dataCalled
      = true ∧
    (runMain cfgAll [] auth304 dataRecordEmptyNet (.ok ())).exit =
      ExitStatus.exit0 :=
  ⟨rfl, rfl⟩

/-- C6 amended: any auth-endpoint transport error, timeout, or 4xx/5xx
status (for example 401) makes `get_bearer_token` print its diagnostic
and the process exit non-zero with no data fetch and no write. -/
theorem C6_amended_holds (cfg : Config) (sections : List String)
    (dataNet : NetResult) (w : Except String Unit) (authNet : NetResult)
    (hc : configOk cfg = true)
    (hfail : (∃ msg, authNet = .netError msg) ∨
             (∃ r, authNet = .response r ∧ 400 ≤ r.status ∧ r.status < 600)) :
    (getBearerToken authNet).1 = [.errorToken] ∧
    (runMain cfg sections authNet dataNet w).dataCalled = false ∧
    (runMain cfg sections authNet dataNet w).saveOutcome = none ∧
    nonZeroExit (runMain cfg sections authNet dataNet w).exit = true := by
  have hauth : getBearerToken authNet = ([.errorToken], .exitNonZero) := by
    rcases hfail with ⟨msg, rfl⟩ | ⟨r, rfl, h1, h2⟩
    · rfl
    · have hr : raiseForStatusRaises r.status = true := by
        simp [raiseForStatusRaises]
        omega
      simp [getBearerToken, hr]
  have h2 : (getBearerToken authNet).2 = .exitNonZero := by rw [hauth]
  refine ⟨by rw [hauth], ?_, ?_, ?_⟩ <;> simp [runMain, hc, h2, nonZeroExit]

/-- Witness for the amended C6 at a concrete 401 auth response. -/
theorem C6_witness :
    (getBearerToken (.response auth401Resp)).1 = [.errorToken] ∧
    (runMain cfgAll [] (.response auth401Resp) dataRecordNet
        (.ok ())).dataCalled = false ∧
    (runMain cfgAll [] (.response auth401Resp) dataRecordNet
        (.ok ())).saveOutcome = none ∧
    nonZeroExit (runMain cfgAll [] (.response auth401Resp) dataRecordNet
        (.ok ())).exit = true :=
  C6_amended_holds cfgAll [] dataRecordNet (.ok ()) (.response auth401Resp)
    rfl (Or.inr ⟨auth401Resp, rfl, by decide, by decide⟩)

/-- C3: the worked example (200 response with `record` mapped to the two
records) produces the table with columns `a`, `b`, two rows in record
order with the second row holding 2 and 3 and the first row's `b` cell
blank, emitted as one header row plus the data rows with no index
column; in general each record becomes one row, rows align with the
unioned columns, and a record's missing key yields a blank cell. -/
theorem C3_worked_example :
    fileOf (runMain cfgAll [] authOkNet dataRecordNet (.ok ())) =
      some tableAB ∧
    (runMain cfgAll [] authOkNet dataRecordNet (.ok ())).exit =
      ExitStatus.exit0 ∧
    sheetOf tableAB =
      [[.header "a", .header "b"],
       [.val (.num 1), .blank],
       [.val (.num 2), .val (.num 3)]] ∧
    (∀ recs : List JValue, (mkTable recs).rows.length = recs.length) ∧
    (∀ (recs : List JValue) (r : JValue), r ∈ recs →
        (mkTable recs).columns.map (cellOf r) ∈ (mkTable recs).rows) ∧
    (∀ (recs : List JValue) (row : List (Option JValue)),
        row ∈ (mkTable recs).rows →
        row.length = (mkTable recs).columns.length) ∧
    (∀ (fields : List (String × JValue)) (k : String),
        lookupField fields k = none → cellOf (.obj fields) k = none) := by
  refine ⟨rfl, rfl, rfl, ?_, ?_, ?_, ?_⟩
  · intro recs
    simp [mkTable]
  · intro recs r hr
    simp only [mkTable, List.mem_map]
    exact ⟨r, hr, rfl⟩
  · intro recs row hrow
    simp only [mkTable, List.mem_map] at hrow
    obtain ⟨r, hr, rfl⟩ := hrow
    simp [mkTable]
  · intro fields k hk
    simp [cellOf, hk]

/-- Witness for C3 at the first example record. -/
theorem C3_witness :
    (mkTable recsAB).columns.map (cellOf (JValue.obj [("a", .num 1)])) ∈
      (mkTable recsAB).rows ∧
    cellOf (.obj [("a", .num 1)]) "b" = none :=
  ⟨C3_worked_example.2.2.2.2.1 recsAB (.obj [("a", .num 1)])
      (List.mem_cons_self _ _),
   C3_worked_example.2.2.2.2.2.2 [("a", .num 1)] "b" rfl⟩

end PSGenesis
